import Mathlib

/-!
Verification of the shorts-automation pipeline core
(`src/workflows/main_workflow.py`, `src/agents/supervisor_agent.py`,
`src/models.py`), shallowly embedded in Lean.

External collaborators (LLM calls, image/TTS/video backends) are modelled
as oracles: functions from the invocation index (how many times that
collaborator has been called so far in the run) and its inputs to either a
result (`Except.ok`) or a raised exception (`Except.error msg`).
`Counts` instruments how often each collaborator is invoked.
-/

/-- Enum `ContentType` from `src/models.py`. -/
inductive ContentType
  | auto
  | youtubeSearch
  | custom
deriving DecidableEq, Repr

/-- Enum `ContentTone` from `src/models.py`. -/
inductive ContentTone
  | scary | horror | romance | funny | angry | sad | news | gossip | asmr | default
deriving DecidableEq, Repr

/-- Model `TrendData` from `src/models.py` (the `fetched_at` timestamp is
never read by the workflow and is omitted). -/
structure TrendData where
  title : String
  source : String
  url : Option String := none
  score : Int := 0
  content : String := ""
  contentType : ContentType := ContentType.auto
deriving DecidableEq, Repr

/-- Enum `CameraEffect` from `src/models.py`. -/
inductive CameraEffect
  | zoomIn | zoomOut | panLeft | panRight | staticShot
deriving DecidableEq, Repr

/-- Model `SceneInfo` from `src/models.py`. -/
structure SceneInfo where
  prompt : String
  effect : CameraEffect := CameraEffect.staticShot
deriving DecidableEq, Repr

/-- Model `Script` from `src/models.py`. -/
structure Script where
  hook : String
  body : String
  cta : String
  fullText : String := ""
  tone : ContentTone := ContentTone.default
  scenePrompts : List String := []
  scenes : List SceneInfo := []
deriving DecidableEq, Repr

/-- Model `ImageResult` from `src/models.py` (paths modelled as strings). -/
structure ImageResult where
  filePath : String
  prompt : String
  index : Nat := 0
deriving DecidableEq, Repr

/-- Model `AudioResult` from `src/models.py`; the float duration is only
passed around / printed by the workflow, so an integer stand-in is exact
for the control flow. -/
structure AudioResult where
  filePath : String
  duration : Int
  voiceId : String
deriving DecidableEq, Repr

/-- Model `VideoResult` from `src/models.py`. -/
structure VideoResult where
  filePath : String
  duration : Int
  resolution : Int × Int := (1080, 1920)
deriving DecidableEq, Repr

/-- Enum `ReviewResult` from `src/agents/supervisor_agent.py`. -/
inductive ReviewResult
  | approved
  | rejected
  | needsRevision
deriving DecidableEq, Repr

/-- Dataclass `SupervisorFeedback` from `src/agents/supervisor_agent.py`. -/
structure SupervisorFeedback where
  result : ReviewResult
  score : Int
  feedback : String
  suggestions : List String
deriving DecidableEq, Repr

/-!
Section: `SupervisorAgent._parse_feedback`.

The parser works on `List Char` (the underlying data of `String`) so that
every operation is primitive recursion the kernel can evaluate. Each helper
mirrors the Python string operation used at that spot.
-/

/-- Python `s.split("\n")`: split at every newline, keeping empty pieces. -/
def linesSplit : List Char → List (List Char)
  | [] => [[]]
  | ch :: rest =>
    let r := linesSplit rest
    if ch = '\n' then [] :: r
    else
      match r with
      | [] => [[ch]]
      | w :: ws => (ch :: w) :: ws

/-- Python `s.strip()`: drop whitespace from both ends. -/
def trimL (l : List Char) : List Char :=
  ((l.dropWhile Char.isWhitespace).reverse.dropWhile Char.isWhitespace).reverse

/-- Python `s.split(":", 1)[1]`: everything after the first colon
(empty when there is no colon; callers are guarded by a `startswith`
check on a string containing a colon). -/
def afterColon : List Char → List Char
  | [] => []
  | ch :: rest => if ch = ':' then rest else afterColon rest

/-- Python `pat in s`: substring containment. -/
def containsSub (pat : List Char) : List Char → Bool
  | [] => List.isPrefixOf pat []
  | ch :: rest => List.isPrefixOf pat (ch :: rest) || containsSub pat rest

/-- Split at every whitespace character (auxiliary for Python `s.split()`). -/
def splitWhite : List Char → List (List Char)
  | [] => [[]]
  | ch :: rest =>
    let r := splitWhite rest
    if Char.isWhitespace ch then [] :: r
    else
      match r with
      | [] => [[ch]]
      | w :: ws => (ch :: w) :: ws

/-- Python `s.split()`: whitespace-separated words, empties discarded. -/
def wordsL (l : List Char) : List (List Char) :=
  (splitWhite l).filter (fun w => ¬ w.isEmpty)

/-- Value of a non-empty all-digit string (`none` otherwise). -/
def digitsVal (cs : List Char) : Option Int :=
  match cs with
  | [] => none
  | _ =>
    if cs.all Char.isDigit then
      some (cs.foldl (fun a ch => a * 10 + Int.ofNat (ch.toNat - 48)) 0)
    else none

/-- Python `int(s)` on a whitespace-free token: optional sign, then digits. -/
def parseIntL (cs : List Char) : Option Int :=
  match cs with
  | [] => none
  | ch :: rest =>
    if ch = '-' then (digitsVal rest).map (fun n => -n)
    else if ch = '+' then digitsVal rest
    else digitsVal cs

/-- The `current_section` marker of `_parse_feedback`. -/
inductive FSection
  | fb
  | sugg
deriving DecidableEq, Repr

/-- Loop state of `_parse_feedback`: the four fields being accumulated plus
`current_section`. -/
structure ParseState where
  result : ReviewResult
  score : Int
  feedbackText : List Char
  suggestions : List (List Char)
  sectionCur : Option FSection
deriving DecidableEq, Repr

/-- The `SCORE:` branch of `_parse_feedback`:
`int(line.split(":", 1)[1].strip().split()[0])` clamped to `[1,10]`,
with any raised exception (missing token, unparsable int) yielding 5. -/
def scoreOfLine (line : List Char) : Int :=
  match (wordsL (trimL (afterColon line))).head? with
  | none => 5
  | some tok =>
    match parseIntL tok with
    | none => 5
    | some n => max 1 (min 10 n)

/-- Condition of the `RESULT:` branch:
`line.upper().strip().startswith("RESULT:")`. -/
def isResultLine (l : List Char) : Bool :=
  List.isPrefixOf "RESULT:".data (trimL (l.map Char.toUpper))

/-- Condition of the `SCORE:` branch. -/
def isScoreLine (l : List Char) : Bool :=
  List.isPrefixOf "SCORE:".data (trimL (l.map Char.toUpper))

/-- Condition of the `FEEDBACK:` branch. -/
def isFeedbackLine (l : List Char) : Bool :=
  List.isPrefixOf "FEEDBACK:".data (trimL (l.map Char.toUpper))

/-- Condition of the `SUGGESTIONS:` branch. -/
def isSuggestionsLine (l : List Char) : Bool :=
  List.isPrefixOf "SUGGESTIONS:".data (trimL (l.map Char.toUpper))

/-- Python `line.strip().startswith("-")`. -/
def startsDash (l : List Char) : Bool :=
  List.isPrefixOf "-".data (trimL l)

/-- The `RESULT:` branch of `_parse_feedback`: substring tests on
`line.split(":", 1)[1].strip().lower()`. -/
def resultOfLine (line : List Char) : ReviewResult :=
  let resultText := (trimL (afterColon line)).map Char.toLower
  if containsSub "approved".data resultText then ReviewResult.approved
  else if containsSub "revision".data resultText then ReviewResult.needsRevision
  else ReviewResult.rejected

/-- One iteration of the line loop in `_parse_feedback`. -/
def processLine (ps : ParseState) (line : List Char) : ParseState :=
  if isResultLine line then
    { ps with result := resultOfLine line }
  else if isScoreLine line then
    { ps with score := scoreOfLine line }
  else if isFeedbackLine line then
    { ps with feedbackText := trimL (afterColon line), sectionCur := some FSection.fb }
  else if isSuggestionsLine line then
    { ps with sectionCur := some FSection.sugg }
  else if ps.sectionCur = some FSection.fb ∧ ¬ trimL line = [] then
    if startsDash line then ps
    else { ps with feedbackText := ps.feedbackText ++ (' ' :: trimL line) }
  else if ps.sectionCur = some FSection.sugg ∧ ¬ trimL line = [] then
    if startsDash line then
      { ps with suggestions := ps.suggestions ++ [trimL ((trimL line).drop 1)] }
    else ps
  else ps

/-- Function `_parse_feedback` up to (but not including) the score-based override:
fold the line loop over the response, starting from the defaults
`result = REJECTED`, `score = 5`, empty feedback and suggestions. -/
def parseFeedbackRaw (response : String) : ParseState :=
  (linesSplit response.data).foldl processLine
    ⟨ReviewResult.rejected, 5, [], [], none⟩

/-- The score-based override at the end of `_parse_feedback`:
`score >= 9` forces APPROVED, `score <= 4` forces REJECTED. -/
def normalizeResult (score : Int) (r : ReviewResult) : ReviewResult :=
  if score ≥ 9 then ReviewResult.approved
  else if score ≤ 4 then ReviewResult.rejected
  else r

/-- Function `_parse_feedback`: parse then apply the score-based override. -/
def parseFeedback (response : String) : SupervisorFeedback :=
  let ps := parseFeedbackRaw response
  { result := normalizeResult ps.score ps.result
    score := ps.score
    feedback := String.mk ps.feedbackText
    suggestions := ps.suggestions.map String.mk }

/-!
Section: `ShortsWorkflow` (`src/workflows/main_workflow.py`).

`WorkflowState` is the LangGraph `TypedDict`; the six node handlers below
are the six graph nodes, composed in the fixed linear order given by
`_build_graph` (`fetch_trend → generate_script → generate_images →
generate_audio → final_review → create_video`, with no conditional edges,
so each node runs exactly once per `graph.ainvoke`).
-/

/-- Constant `MAX_RETRIES` from `src/workflows/main_workflow.py`. -/
def MAX_RETRIES : Nat := 3

/-- The LangGraph `WorkflowState` TypedDict. `topic` is the user-supplied
topic string (distinct from the `trend` artifact); `audioTrack` embeds the
`audio` field. -/
structure WorkflowState where
  shortId : String
  contentType : ContentType
  category : Option String
  topic : Option String
  searchQuery : Option String
  trend : Option TrendData
  trendsPool : List TrendData
  script : Option Script
  images : List ImageResult
  audioTrack : Option AudioResult
  video : Option VideoResult
  trendAttempts : Nat
  scriptAttempts : Nat
  imageAttempts : Nat
  audioAttempts : Nat
  error : Option String
deriving DecidableEq, Repr

/-- Invocation counters for every collaborator call site (instrumentation;
not part of the Python state). -/
structure Counts where
  trendSourceCalls : Nat
  reviewTrendCalls : Nat
  scriptGenCalls : Nat
  reviewScriptCalls : Nat
  imageGenCalls : Nat
  reviewImagesCalls : Nat
  voiceGenCalls : Nat
  reviewAudioCalls : Nat
  finalReviewCalls : Nat
  videoGenCalls : Nat
deriving DecidableEq, Repr

/-- All counters at zero. -/
def Counts.init : Counts := ⟨0, 0, 0, 0, 0, 0, 0, 0, 0, 0⟩

/-- The external collaborators, as oracles from invocation index and inputs
to a result or a raised exception. -/
structure Collaborators where
  trendAuto : Nat → Except String (List TrendData)
  trendSearch : Nat → Except String (List TrendData)
  reviewTrend : Nat → TrendData → Except String SupervisorFeedback
  scriptGen : Nat → Option TrendData → Except String Script
  reviewScript : Nat → Script → Except String SupervisorFeedback
  imageGen : Nat → List String → Except String (List ImageResult)
  reviewImages : Nat → List ImageResult → Except String SupervisorFeedback
  voiceGen : Nat → Option Script → Except String AudioResult
  reviewAudioFn : Nat → AudioResult → Except String SupervisorFeedback
  finalGrade : Nat → Except String SupervisorFeedback
  videoGen : Nat → Except String VideoResult

/-- Python truthiness of an optional string. -/
def truthy : Option String → Bool
  | none => false
  | some s => ¬ s = ""

/-- Stable insertion (descending by `score`) auxiliary for
`trends.sort(key=lambda t: t.score, reverse=True)`. -/
def insertDesc (x : TrendData) : List TrendData → List TrendData
  | [] => [x]
  | y :: ys => if x.score ≥ y.score then x :: y :: ys else y :: insertDesc x ys

/-- Python's stable descending sort by `score`. -/
def sortDesc (l : List TrendData) : List TrendData :=
  l.foldr insertDesc []

/-- The pool-filling part of `_fetch_trend`: CUSTOM builds a single
candidate from the user topic, YOUTUBE_SEARCH and AUTO call the trend
agent (one source invocation). -/
def fetchCandidates (c : Collaborators) (st : WorkflowState) (k : Counts) :
    Except String (List TrendData) × Counts :=
  if st.contentType = ContentType.custom ∧ truthy st.topic then
    (Except.ok [{ title := st.topic.getD "", source := "user_input", score := 100 }], k)
  else if st.contentType = ContentType.youtubeSearch ∧ truthy st.searchQuery then
    (c.trendSearch k.trendSourceCalls, { k with trendSourceCalls := k.trendSourceCalls + 1 })
  else
    (c.trendAuto k.trendSourceCalls, { k with trendSourceCalls := k.trendSourceCalls + 1 })

/-- The selection/review part of `_fetch_trend`: take the front candidate,
review it in strict mode; a rejection either exhausts the budget (fatal)
or returns with the pool advanced and the attempt counted — without a
selected trend. -/
def selectAndReview (c : Collaborators) (strict : Bool)
    (st : WorkflowState) (k : Counts) : WorkflowState × Counts :=
  match st.trendsPool with
  | [] => ({ st with error := some "All trends rejected, no more candidates" }, k)
  | t :: remaining =>
    if strict then
      let k1 := { k with reviewTrendCalls := k.reviewTrendCalls + 1 }
      match c.reviewTrend k.reviewTrendCalls t with
      | Except.error e => ({ st with error := some e }, k1)
      | Except.ok fb =>
        if fb.result = ReviewResult.rejected then
          if st.trendAttempts + 1 ≥ MAX_RETRIES then
            ({ st with error := some "Supervisor rejected 3 trends" }, k1)
          else
            ({ st with trendsPool := remaining,
                       trendAttempts := st.trendAttempts + 1 }, k1)
        else
          ({ st with trend := some t, trendsPool := remaining }, k1)
    else
      ({ st with trend := some t, trendsPool := remaining }, k)

/-- Node `_fetch_trend`. Any exception inside the body is caught by its
outer `try` and stored in `error`. -/
def fetchTrend (c : Collaborators) (strict : Bool)
    (sk : WorkflowState × Counts) : WorkflowState × Counts :=
  let st := sk.1
  let k := sk.2
  if st.trendsPool.isEmpty then
    match fetchCandidates c st k with
    | (Except.error e, k1) => ({ st with error := some e }, k1)
    | (Except.ok trends, k1) =>
      if trends.isEmpty then ({ st with error := some "No topics found" }, k1)
      else selectAndReview c strict { st with trendsPool := sortDesc trends } k1
  else selectAndReview c strict st k

/-- The `while attempts < MAX_RETRIES` loop of `_generate_script`;
`fuel = MAX_RETRIES - attempts` iterations remain. Generation or review
exceptions are caught and fall through to the next attempt; a verdict
other than APPROVED (REJECTED or NEEDS_REVISION) also retries. -/
def scriptLoop (c : Collaborators) (strict : Bool) (st : WorkflowState)
    (k : Counts) (attempts fuel : Nat) : WorkflowState × Counts :=
  match fuel with
  | 0 => ({ st with error := some "Script rejected after 3 attempts" }, k)
  | fuel2 + 1 =>
    let attempts2 := attempts + 1
    let k1 := { k with scriptGenCalls := k.scriptGenCalls + 1 }
    match c.scriptGen k.scriptGenCalls st.trend with
    | Except.error _ => scriptLoop c strict st k1 attempts2 fuel2
    | Except.ok scr =>
      if strict then
        let k2 := { k1 with reviewScriptCalls := k1.reviewScriptCalls + 1 }
        match c.reviewScript k1.reviewScriptCalls scr with
        | Except.error _ => scriptLoop c strict st k2 attempts2 fuel2
        | Except.ok fb =>
          if fb.result = ReviewResult.approved then
            ({ st with script := some scr, scriptAttempts := attempts2 }, k2)
          else scriptLoop c strict st k2 attempts2 fuel2
      else
        ({ st with script := some scr, scriptAttempts := attempts2 }, k1)

/-- Node `_generate_script`. -/
def generateScript (c : Collaborators) (strict : Bool)
    (sk : WorkflowState × Counts) : WorkflowState × Counts :=
  if sk.1.error.isSome then sk
  else scriptLoop c strict sk.1 sk.2 sk.1.scriptAttempts
    (MAX_RETRIES - sk.1.scriptAttempts)

/-- The `while attempts < MAX_RETRIES` loop of `_generate_images`.
A missing script raises on `state["script"].scene_prompts` before the
generator call, which the `try` turns into a plain failed attempt.
A verdict is accepted when APPROVED, or (cost rule) when `score >= 6`. -/
def imagesLoop (c : Collaborators) (strict : Bool) (st : WorkflowState)
    (k : Counts) (attempts fuel : Nat) : WorkflowState × Counts :=
  match fuel with
  | 0 => ({ st with error := some "Images rejected after 3 attempts" }, k)
  | fuel2 + 1 =>
    let attempts2 := attempts + 1
    match st.script with
    | none => imagesLoop c strict st k attempts2 fuel2
    | some scr =>
      let k1 := { k with imageGenCalls := k.imageGenCalls + 1 }
      match c.imageGen k.imageGenCalls scr.scenePrompts with
      | Except.error _ => imagesLoop c strict st k1 attempts2 fuel2
      | Except.ok imgs =>
        if strict then
          let k2 := { k1 with reviewImagesCalls := k1.reviewImagesCalls + 1 }
          match c.reviewImages k1.reviewImagesCalls imgs with
          | Except.error _ => imagesLoop c strict st k2 attempts2 fuel2
          | Except.ok fb =>
            if fb.result = ReviewResult.approved then
              ({ st with images := imgs, imageAttempts := attempts2 }, k2)
            else if fb.score ≥ 6 then
              ({ st with images := imgs, imageAttempts := attempts2 }, k2)
            else imagesLoop c strict st k2 attempts2 fuel2
        else
          ({ st with images := imgs, imageAttempts := attempts2 }, k1)

/-- Node `_generate_images`. -/
def generateImages (c : Collaborators) (strict : Bool)
    (sk : WorkflowState × Counts) : WorkflowState × Counts :=
  if sk.1.error.isSome then sk
  else imagesLoop c strict sk.1 sk.2 sk.1.imageAttempts
    (MAX_RETRIES - sk.1.imageAttempts)

/-- Node `_generate_audio`: a single generation attempt; in strict mode the
verdict is requested but a REJECTED verdict only logs a warning — the
artifact is kept, `audio_attempts` is never touched, and there is no
retry. Any exception is caught by the node's `try` and is fatal. -/
def genAudioStage (c : Collaborators) (strict : Bool)
    (sk : WorkflowState × Counts) : WorkflowState × Counts :=
  let st := sk.1
  let k := sk.2
  if st.error.isSome then sk
  else
    let k1 := { k with voiceGenCalls := k.voiceGenCalls + 1 }
    match c.voiceGen k.voiceGenCalls st.script with
    | Except.error e => ({ st with error := some e }, k1)
    | Except.ok a =>
      if strict then
        let k2 := { k1 with reviewAudioCalls := k1.reviewAudioCalls + 1 }
        match c.reviewAudioFn k1.reviewAudioCalls a with
        | Except.error e => ({ st with error := some e }, k2)
        | Except.ok _ => ({ st with audioTrack := some a }, k2)
      else ({ st with audioTrack := some a }, k1)

/-- Node `_final_review`: skipped entirely when an error is set or strict
mode is off; otherwise one supervisor call with zero retry budget. This
node has no `try`/`except`, so an exception (from
`state["audio"].duration` on a missing audio artifact, or from the
supervisor call) propagates out of the graph uncaught — hence the
`Except` result type. -/
def finalReview (c : Collaborators) (strict : Bool)
    (sk : WorkflowState × Counts) : Except String (WorkflowState × Counts) :=
  let st := sk.1
  let k := sk.2
  if st.error.isSome then Except.ok sk
  else if strict = false then Except.ok sk
  else
    match st.audioTrack with
    | none => Except.error "AttributeError: audio is None"
    | some _ =>
      let k1 := { k with finalReviewCalls := k.finalReviewCalls + 1 }
      match c.finalGrade k.finalReviewCalls with
      | Except.error e => Except.error e
      | Except.ok fb =>
        if fb.result = ReviewResult.rejected then
          Except.ok ({ st with
            error := some "Final review failed - content not up to standards" }, k1)
        else Except.ok (st, k1)

/-- Node `_create_video`: a single composition attempt; exceptions are
caught and fatal. -/
def createVideo (c : Collaborators)
    (sk : WorkflowState × Counts) : WorkflowState × Counts :=
  let st := sk.1
  let k := sk.2
  if st.error.isSome then sk
  else
    let k1 := { k with videoGenCalls := k.videoGenCalls + 1 }
    match c.videoGen k.videoGenCalls with
    | Except.error e => ({ st with error := some e }, k1)
    | Except.ok v => ({ st with video := some v }, k1)

/-- The initial `WorkflowState` built by `ShortsWorkflow.run`. -/
def initState (ct : ContentType) (cat tp sq : Option String) : WorkflowState :=
  { shortId := "short-1", contentType := ct, category := cat, topic := tp
    searchQuery := sq, trend := none, trendsPool := [], script := none
    images := [], audioTrack := none, video := none, trendAttempts := 0
    scriptAttempts := 0, imageAttempts := 0, audioAttempts := 0, error := none }

/-- One `graph.ainvoke`: the six nodes in the fixed linear order of
`_build_graph`. An `Except.error` result is an exception escaping the
graph (only `_final_review` can raise one). -/
def runPipeline (c : Collaborators) (strict : Bool) (st0 : WorkflowState) :
    Except String (WorkflowState × Counts) :=
  match finalReview c strict
      (genAudioStage c strict
        (generateImages c strict
          (generateScript c strict
            (fetchTrend c strict (st0, Counts.init))))) with
  | Except.error e => Except.error e
  | Except.ok sk => Except.ok (createVideo c sk)

/-!
Concrete sample data used by closed evaluations
-/

/-- Sample candidate with score 90. -/
def tHigh : TrendData := { title := "high", source := "llm", score := 90 }

/-- Sample candidate with score 70. -/
def tMid : TrendData := { title := "mid", source := "llm", score := 70 }

/-- Sample candidate with score 50. -/
def tLow : TrendData := { title := "low", source := "llm", score := 50 }

/-- A rejecting supervisor verdict (consistent label/score pair). -/
def fbRej : SupervisorFeedback :=
  { result := ReviewResult.rejected, score := 3, feedback := "weak", suggestions := [] }

/-- An approving supervisor verdict. -/
def fbApp : SupervisorFeedback :=
  { result := ReviewResult.approved, score := 9, feedback := "great", suggestions := [] }

/-- Sample script artifact. -/
def scrW : Script := { hook := "h", body := "b", cta := "c", scenePrompts := ["p1", "p2"] }

/-- Sample audio artifact. -/
def audW : AudioResult := { filePath := "audio.mp3", duration := 50, voiceId := "v1" }

/-- Sample video artifact. -/
def vidW : VideoResult := { filePath := "final.mp4", duration := 50 }

/-- Sample image artifacts. -/
def imgsW : List ImageResult :=
  [{ filePath := "i1.png", prompt := "p1" }, { filePath := "i2.png", prompt := "p2", index := 1 }]

/-- A baseline set of collaborators on which everything succeeds at first
try and every review approves; scenario-specific variants override single
fields. -/
def cBase : Collaborators :=
  { trendAuto := fun _ => Except.ok [tHigh]
    trendSearch := fun _ => Except.ok []
    reviewTrend := fun _ _ => Except.ok fbApp
    scriptGen := fun _ _ => Except.ok scrW
    reviewScript := fun _ _ => Except.ok fbApp
    imageGen := fun _ _ => Except.ok imgsW
    reviewImages := fun _ _ => Except.ok fbApp
    voiceGen := fun _ _ => Except.ok audW
    reviewAudioFn := fun _ _ => Except.ok fbApp
    finalGrade := fun _ => Except.ok fbApp
    videoGen := fun _ => Except.ok vidW }

/-!
Parser invariants (`_parse_feedback`)
-/

lemma scoreOfLine_bounds (l : List Char) :
    1 ≤ scoreOfLine l ∧ scoreOfLine l ≤ 10 := by
  unfold scoreOfLine
  split
  · norm_num
  · split
    · norm_num
    · exact ⟨le_max_left _ _, max_le (by norm_num) (min_le_left _ _)⟩

lemma processLine_score_bounds (ps : ParseState) (l : List Char)
    (h1 : 1 ≤ ps.score) (h2 : ps.score ≤ 10) :
    1 ≤ (processLine ps l).score ∧ (processLine ps l).score ≤ 10 := by
  unfold processLine
  have hb := scoreOfLine_bounds l
  split_ifs <;> simp_all

lemma processLine_result_eq (ps : ParseState) (l : List Char)
    (h : isResultLine l = false) : (processLine ps l).result = ps.result := by
  unfold processLine
  split_ifs <;> simp_all

lemma processLine_score_eq (ps : ParseState) (l : List Char)
    (h : isScoreLine l = false) : (processLine ps l).score = ps.score := by
  unfold processLine
  split_ifs <;> simp_all

lemma foldl_score_bounds (lines : List (List Char)) :
    ∀ ps : ParseState, 1 ≤ ps.score → ps.score ≤ 10 →
      1 ≤ (lines.foldl processLine ps).score ∧
      (lines.foldl processLine ps).score ≤ 10 := by
  induction lines with
  | nil => intro ps h1 h2; exact ⟨h1, h2⟩
  | cons l ls ih =>
    intro ps h1 h2
    have hb := processLine_score_bounds ps l h1 h2
    exact ih _ hb.1 hb.2

lemma foldl_result_eq (lines : List (List Char)) :
    ∀ ps : ParseState, (∀ l ∈ lines, isResultLine l = false) →
      (lines.foldl processLine ps).result = ps.result := by
  induction lines with
  | nil => intro ps _; rfl
  | cons l ls ih =>
    intro ps h
    have hl := processLine_result_eq ps l (h l (by simp))
    have := ih (processLine ps l) (fun x hx => h x (by simp [hx]))
    simpa [hl] using this

lemma foldl_score_cst (lines : List (List Char)) :
    ∀ ps : ParseState, (∀ l ∈ lines, isScoreLine l = false) →
      (lines.foldl processLine ps).score = ps.score := by
  induction lines with
  | nil => intro ps _; rfl
  | cons l ls ih =>
    intro ps h
    have hl := processLine_score_eq ps l (h l (by simp))
    have := ih (processLine ps l) (fun x hx => h x (by simp [hx]))
    simpa [hl] using this

/-- Canonical label text emitted by the supervisor prompt format. -/
def labelText : ReviewResult → String
  | ReviewResult.approved => "approved"
  | ReviewResult.rejected => "rejected"
  | ReviewResult.needsRevision => "revision"

/-- A response in the exact `RESULT:`/`SCORE:` format the supervisor
prompt demands. -/
def mkResponse (r : ReviewResult) (s : Int) : String :=
  "RESULT: " ++ labelText r ++ "\nSCORE: " ++ toString s

/-- C2. For every score `s` in `[1,10]` and every stated label, the
effective verdict of `_parse_feedback` is the pure function of `(s, label)`
given by the score override: `s ≥ 9` forces Approved, `s ≤ 4` forces
Rejected, and otherwise the stated label is kept; the parsed score is `s`
itself. -/
theorem claim_C2 : ∀ s : Int, 1 ≤ s → s ≤ 10 → ∀ l : ReviewResult,
    (parseFeedback (mkResponse l s)).score = s ∧
    (parseFeedback (mkResponse l s)).result =
      (if 9 ≤ s then ReviewResult.approved
       else if s ≤ 4 then ReviewResult.rejected else l) := by
  intro s h1 h2 l
  interval_cases s <;> cases l <;> exact ⟨by decide, by decide⟩

/-- Witness for C2 at `s = 9`, stated label Rejected: the effective
verdict is Approved. -/
theorem claim_C2_witness :
    (parseFeedback (mkResponse ReviewResult.rejected 9)).score = 9 ∧
    (parseFeedback (mkResponse ReviewResult.rejected 9)).result =
      ReviewResult.approved := by
  have h := claim_C2 9 (by norm_num) (by norm_num) ReviewResult.rejected
  exact ⟨h.1, by simpa using h.2⟩

/-- C10. For every input string, `_parse_feedback` returns a total result
whose score lies in `[1,10]` (clamping / defaulting to 5 built in); if no
line is a `RESULT:` line the pre-override label is the default Rejected,
and if no line is a `SCORE:` line the score is the default 5. -/
theorem claim_C10 : ∀ response : String,
    (1 ≤ (parseFeedback response).score ∧ (parseFeedback response).score ≤ 10) ∧
    ((∀ l ∈ linesSplit response.data, isResultLine l = false) →
      (parseFeedbackRaw response).result = ReviewResult.rejected) ∧
    ((∀ l ∈ linesSplit response.data, isScoreLine l = false) →
      (parseFeedback response).score = 5) := by
  intro response
  refine ⟨?_, ?_, ?_⟩
  · have := foldl_score_bounds (linesSplit response.data)
      ⟨ReviewResult.rejected, 5, [], [], none⟩ (by norm_num) (by norm_num)
    simpa [parseFeedback, parseFeedbackRaw] using this
  · intro h
    have := foldl_result_eq (linesSplit response.data)
      ⟨ReviewResult.rejected, 5, [], [], none⟩ h
    simpa [parseFeedbackRaw] using this
  · intro h
    have := foldl_score_cst (linesSplit response.data)
      ⟨ReviewResult.rejected, 5, [], [], none⟩ h
    simpa [parseFeedback, parseFeedbackRaw] using this

/-- Witness for C10 on a marker-free response: score bounds hold, the
pre-override label is Rejected and the score defaults to 5. -/
theorem claim_C10_witness :
    (1 ≤ (parseFeedback "no markers here").score ∧
      (parseFeedback "no markers here").score ≤ 10) ∧
    (parseFeedbackRaw "no markers here").result = ReviewResult.rejected ∧
    (parseFeedback "no markers here").score = 5 := by
  have h := claim_C10 "no markers here"
  exact ⟨h.1, h.2.1 (by decide), h.2.2 (by decide)⟩

/-!
Frame conditions of the six node handlers
-/

/-- The five identity/input fields, modified by no handler. -/
def coreFieldsEq (st st2 : WorkflowState) : Prop :=
  st2.shortId = st.shortId ∧ st2.contentType = st.contentType ∧
  st2.category = st.category ∧ st2.topic = st.topic ∧
  st2.searchQuery = st.searchQuery

/-- Fields `_fetch_trend` must not touch: everything except `trend`,
`trends_pool`, `trend_attempts`, `error`. -/
def trendFrame (st st2 : WorkflowState) : Prop :=
  coreFieldsEq st st2 ∧ st2.script = st.script ∧ st2.images = st.images ∧
  st2.audioTrack = st.audioTrack ∧ st2.video = st.video ∧
  st2.scriptAttempts = st.scriptAttempts ∧
  st2.imageAttempts = st.imageAttempts ∧
  st2.audioAttempts = st.audioAttempts

/-- Fields `_generate_script` must not touch: everything except `script`,
`script_attempts`, `error`. -/
def scriptFrame (st st2 : WorkflowState) : Prop :=
  coreFieldsEq st st2 ∧ st2.trend = st.trend ∧
  st2.trendsPool = st.trendsPool ∧ st2.trendAttempts = st.trendAttempts ∧
  st2.images = st.images ∧ st2.audioTrack = st.audioTrack ∧
  st2.video = st.video ∧ st2.imageAttempts = st.imageAttempts ∧
  st2.audioAttempts = st.audioAttempts

/-- Fields `_generate_images` must not touch: everything except `images`,
`image_attempts`, `error`. -/
def imagesFrame (st st2 : WorkflowState) : Prop :=
  coreFieldsEq st st2 ∧ st2.trend = st.trend ∧
  st2.trendsPool = st.trendsPool ∧ st2.trendAttempts = st.trendAttempts ∧
  st2.script = st.script ∧ st2.scriptAttempts = st.scriptAttempts ∧
  st2.audioTrack = st.audioTrack ∧ st2.video = st.video ∧
  st2.audioAttempts = st.audioAttempts

/-- Fields `_generate_audio` must not touch: everything except `audio` and
`error` (its own `audio_attempts` counter is in fact also untouched, but
the claim permits it to change, so it is left out). -/
def audioFrame (st st2 : WorkflowState) : Prop :=
  coreFieldsEq st st2 ∧ st2.trend = st.trend ∧
  st2.trendsPool = st.trendsPool ∧ st2.trendAttempts = st.trendAttempts ∧
  st2.script = st.script ∧ st2.scriptAttempts = st.scriptAttempts ∧
  st2.images = st.images ∧ st2.imageAttempts = st.imageAttempts ∧
  st2.video = st.video

/-- Fields `_final_review` must not touch: everything except `error`. -/
def reviewFrame (st st2 : WorkflowState) : Prop :=
  coreFieldsEq st st2 ∧ st2.trend = st.trend ∧
  st2.trendsPool = st.trendsPool ∧ st2.trendAttempts = st.trendAttempts ∧
  st2.script = st.script ∧ st2.scriptAttempts = st.scriptAttempts ∧
  st2.images = st.images ∧ st2.imageAttempts = st.imageAttempts ∧
  st2.audioTrack = st.audioTrack ∧ st2.audioAttempts = st.audioAttempts ∧
  st2.video = st.video

/-- Fields `_create_video` must not touch: everything except `video`,
`error`. -/
def videoFrame (st st2 : WorkflowState) : Prop :=
  coreFieldsEq st st2 ∧ st2.trend = st.trend ∧
  st2.trendsPool = st.trendsPool ∧ st2.trendAttempts = st.trendAttempts ∧
  st2.script = st.script ∧ st2.scriptAttempts = st.scriptAttempts ∧
  st2.images = st.images ∧ st2.imageAttempts = st.imageAttempts ∧
  st2.audioTrack = st.audioTrack ∧ st2.audioAttempts = st.audioAttempts

lemma selectAndReview_frame (c : Collaborators) (strict : Bool)
    (st : WorkflowState) (k : Counts) :
    trendFrame st (selectAndReview c strict st k).1 := by
  unfold selectAndReview trendFrame coreFieldsEq
  split
  · simp
  · split
    · split
      · simp
      · split
        · split
          · simp
          · simp
        · simp
    · simp

lemma fetchTrend_frame (c : Collaborators) (strict : Bool)
    (st : WorkflowState) (k : Counts) :
    trendFrame st (fetchTrend c strict (st, k)).1 := by
  unfold fetchTrend
  by_cases hp : st.trendsPool.isEmpty
  · rcases hfc : fetchCandidates c st k with ⟨res, k1⟩
    cases res with
    | error e => simp [hp, hfc, trendFrame, coreFieldsEq]
    | ok trends =>
      by_cases ht : trends.isEmpty
      · simp [hp, hfc, ht, trendFrame, coreFieldsEq]
      · have hf := selectAndReview_frame c strict
          { st with trendsPool := sortDesc trends } k1
        simp only [hp, hfc, ht, if_true, if_false, Bool.false_eq_true]
        simpa [trendFrame, coreFieldsEq] using hf
  · have hf := selectAndReview_frame c strict st k
    simpa [hp] using hf

lemma scriptLoop_frame (c : Collaborators) (strict : Bool)
    (st : WorkflowState) :
    ∀ fuel attempts (k : Counts),
      scriptFrame st (scriptLoop c strict st k attempts fuel).1 := by
  intro fuel
  induction fuel with
  | zero =>
    intro attempts k
    simp [scriptLoop, scriptFrame, coreFieldsEq]
  | succ f ih =>
    intro attempts k
    rw [scriptLoop]
    cases hg : c.scriptGen k.scriptGenCalls st.trend with
    | error e => exact ih _ _
    | ok scr =>
      cases strict with
      | false => simp [scriptFrame, coreFieldsEq]
      | true =>
        simp only [if_true]
        cases hr : c.reviewScript k.reviewScriptCalls scr with
        | error e => exact ih _ _
        | ok fb =>
          by_cases ha : fb.result = ReviewResult.approved
          · simp [ha, scriptFrame, coreFieldsEq]
          · simp only [if_neg ha]
            exact ih _ _

lemma generateScript_frame (c : Collaborators) (strict : Bool)
    (st : WorkflowState) (k : Counts) :
    scriptFrame st (generateScript c strict (st, k)).1 := by
  unfold generateScript
  by_cases he : st.error.isSome
  · simp [he, scriptFrame, coreFieldsEq]
  · simp only [he, if_false, Bool.false_eq_true]
    exact scriptLoop_frame c strict st _ _ _

lemma imagesLoop_frame (c : Collaborators) (strict : Bool)
    (st : WorkflowState) :
    ∀ fuel attempts (k : Counts),
      imagesFrame st (imagesLoop c strict st k attempts fuel).1 := by
  intro fuel
  induction fuel with
  | zero =>
    intro attempts k
    simp [imagesLoop, imagesFrame, coreFieldsEq]
  | succ f ih =>
    intro attempts k
    rw [imagesLoop]
    cases hscr : st.script with
    | none => exact ih _ _
    | some scr =>
      dsimp only
      cases hg : c.imageGen k.imageGenCalls scr.scenePrompts with
      | error e => exact ih _ _
      | ok imgs =>
        cases strict with
        | false => simp [imagesFrame, coreFieldsEq, hscr]
        | true =>
          simp only [if_true]
          cases hr : c.reviewImages k.reviewImagesCalls imgs with
          | error e => exact ih _ _
          | ok fb =>
            by_cases ha : fb.result = ReviewResult.approved
            · simp [ha, imagesFrame, coreFieldsEq, hscr]
            · simp only [if_neg ha]
              by_cases h6 : fb.score ≥ 6
              · simp [h6, imagesFrame, coreFieldsEq, hscr]
              · simp only [if_neg h6]
                exact ih _ _

lemma generateImages_frame (c : Collaborators) (strict : Bool)
    (st : WorkflowState) (k : Counts) :
    imagesFrame st (generateImages c strict (st, k)).1 := by
  unfold generateImages
  by_cases he : st.error.isSome
  · simp [he, imagesFrame, coreFieldsEq]
  · simp only [he, if_false, Bool.false_eq_true]
    exact imagesLoop_frame c strict st _ _ _

lemma genAudioStage_frame (c : Collaborators) (strict : Bool)
    (st : WorkflowState) (k : Counts) :
    audioFrame st (genAudioStage c strict (st, k)).1 := by
  unfold genAudioStage
  by_cases he : st.error.isSome
  · simp [he, audioFrame, coreFieldsEq]
  · simp only [he, if_false, Bool.false_eq_true]
    cases hg : c.voiceGen k.voiceGenCalls st.script with
    | error e => simp [audioFrame, coreFieldsEq]
    | ok a =>
      cases strict with
      | false => simp [audioFrame, coreFieldsEq]
      | true =>
        simp only [if_true]
        cases hr : c.reviewAudioFn k.reviewAudioCalls a with
        | error e => simp [audioFrame, coreFieldsEq]
        | ok fb => simp [audioFrame, coreFieldsEq]

lemma finalReview_frame (c : Collaborators) (strict : Bool)
    (st : WorkflowState) (k : Counts) :
    ∀ st2 k2, finalReview c strict (st, k) = Except.ok (st2, k2) →
      reviewFrame st st2 := by
  intro st2 k2 h
  unfold finalReview at h
  by_cases he : st.error.isSome
  · simp only [he, if_true] at h
    cases h
    simp [reviewFrame, coreFieldsEq]
  · simp only [he, if_false, Bool.false_eq_true] at h
    by_cases hs : strict = false
    · simp only [hs, if_true] at h
      cases h
      simp [reviewFrame, coreFieldsEq]
    · simp only [hs, if_false] at h
      cases ha : st.audioTrack with
      | none => rw [ha] at h; cases h
      | some a =>
        rw [ha] at h
        cases hg : c.finalGrade k.finalReviewCalls with
        | error e => rw [hg] at h; cases h
        | ok fb =>
          rw [hg] at h
          by_cases hr : fb.result = ReviewResult.rejected
          · simp only [if_pos hr] at h
            cases h
            simp [reviewFrame, coreFieldsEq, ha]
          · simp only [if_neg hr] at h
            cases h
            simp [reviewFrame, coreFieldsEq]

lemma createVideo_frame (c : Collaborators)
    (st : WorkflowState) (k : Counts) :
    videoFrame st (createVideo c (st, k)).1 := by
  unfold createVideo
  by_cases he : st.error.isSome
  · simp [he, videoFrame, coreFieldsEq]
  · simp only [he, if_false, Bool.false_eq_true]
    cases hg : c.videoGen k.videoGenCalls with
    | error e => simp [videoFrame, coreFieldsEq]
    | ok v => simp [videoFrame, coreFieldsEq]

/-- A state mid-run: topic, script, images and audio accepted, no error. -/
def stReady : WorkflowState :=
  { initState ContentType.auto none none none with
      trend := some tHigh, script := some scrW, images := imgsW,
      audioTrack := some audW, scriptAttempts := 1, imageAttempts := 1 }

/-- C9 (amended): each stage handler leaves every field other than its own
artifact, its own attempts counter, the error field — and, for the topic
stage, the candidate pool — unchanged; in particular each artifact field
is written by exactly one stage and never modified by a later one. -/
theorem claim_C9 : ∀ (c : Collaborators) (strict : Bool)
    (st : WorkflowState) (k : Counts),
    trendFrame st (fetchTrend c strict (st, k)).1 ∧
    scriptFrame st (generateScript c strict (st, k)).1 ∧
    imagesFrame st (generateImages c strict (st, k)).1 ∧
    audioFrame st (genAudioStage c strict (st, k)).1 ∧
    (∀ st2 k2, finalReview c strict (st, k) = Except.ok (st2, k2) →
      reviewFrame st st2) ∧
    videoFrame st (createVideo c (st, k)).1 := by
  intro c strict st k
  exact ⟨fetchTrend_frame c strict st k, generateScript_frame c strict st k,
    generateImages_frame c strict st k, genAudioStage_frame c strict st k,
    finalReview_frame c strict st k, createVideo_frame c st k⟩

/-- Counterexample to C9 as stated: `_fetch_trend` also rewrites the
`trends_pool` field, which is neither the topic artifact, nor an attempts
counter, nor the error field (here in fast mode: the pool is filled with
two candidates and the front one is consumed, leaving one behind). -/
theorem claim_C9_counterexample :
    (fetchTrend (let c := cBase;
        { c with trendAuto := fun _ => Except.ok [tHigh, tMid] }) false
      (initState ContentType.auto none none none, Counts.init)).1.trendsPool ≠
    (initState ContentType.auto none none none).trendsPool := by decide

/-- Witness for C9 at a concrete mid-run state: the final-review node with
an approving grader returns the state unchanged apart from `error`
(here: fully unchanged), and the video node preserves its frame. -/
theorem claim_C9_witness :
    reviewFrame stReady stReady ∧
    videoFrame stReady (createVideo cBase (stReady, Counts.init)).1 := by
  have h := claim_C9 cBase true stReady Counts.init
  exact ⟨h.2.2.2.2.1 stReady { Counts.init with finalReviewCalls := 1 } rfl,
    h.2.2.2.2.2⟩

/-- C7. With strict mode disabled, every stage accepts the first
successful generation unconditionally and with zero grader invocations
(the counters in the conclusion equalities are untouched), and the
final-review gate is skipped entirely. -/
theorem claim_C7 : ∀ (c : Collaborators) (st : WorkflowState) (k : Counts),
    st.error = none →
    (∀ t rest, st.trendsPool = t :: rest →
      fetchTrend c false (st, k) =
        ({ st with trend := some t, trendsPool := rest }, k)) ∧
    (∀ s, st.scriptAttempts < MAX_RETRIES →
      c.scriptGen k.scriptGenCalls st.trend = Except.ok s →
      generateScript c false (st, k) =
        ({ st with script := some s, scriptAttempts := st.scriptAttempts + 1 },
         { k with scriptGenCalls := k.scriptGenCalls + 1 })) ∧
    (∀ scr imgs, st.imageAttempts < MAX_RETRIES → st.script = some scr →
      c.imageGen k.imageGenCalls scr.scenePrompts = Except.ok imgs →
      generateImages c false (st, k) =
        ({ st with images := imgs, imageAttempts := st.imageAttempts + 1 },
         { k with imageGenCalls := k.imageGenCalls + 1 })) ∧
    (∀ a, c.voiceGen k.voiceGenCalls st.script = Except.ok a →
      genAudioStage c false (st, k) =
        ({ st with audioTrack := some a },
         { k with voiceGenCalls := k.voiceGenCalls + 1 })) ∧
    finalReview c false (st, k) = Except.ok (st, k) := by
  intro c st k herr
  refine ⟨?_, ?_, ?_, ?_, ?_⟩
  · intro t rest hpool
    unfold fetchTrend selectAndReview
    simp [hpool]
  · intro s hlt hgen
    have hf : MAX_RETRIES - st.scriptAttempts =
        (MAX_RETRIES - st.scriptAttempts - 1) + 1 := by
      simp only [MAX_RETRIES] at hlt ⊢
      omega
    unfold generateScript
    rw [hf]
    simp only [scriptLoop, herr, hgen]
    simp
  · intro scr imgs hlt hscr hgen
    have hf : MAX_RETRIES - st.imageAttempts =
        (MAX_RETRIES - st.imageAttempts - 1) + 1 := by
      simp only [MAX_RETRIES] at hlt ⊢
      omega
    unfold generateImages
    rw [hf]
    simp only [imagesLoop, herr, hscr, hgen]
    simp
  · intro a hgen
    unfold genAudioStage
    simp [herr, hgen]
  · unfold finalReview
    simp [herr]

/-- A mid-run state whose candidate pool still holds one candidate. -/
def stPool : WorkflowState := { stReady with trendsPool := [tHigh] }

/-- Witness for C7 at concrete data: each fast-mode stage accepts its
first generation with the grader counters untouched. -/
theorem claim_C7_witness :
    fetchTrend cBase false (stPool, Counts.init) =
      ({ stPool with trend := some tHigh, trendsPool := [] }, Counts.init) ∧
    generateScript cBase false (stReady, Counts.init) =
      ({ stReady with script := some scrW, scriptAttempts := 2 },
       { Counts.init with scriptGenCalls := 1 }) ∧
    genAudioStage cBase false (stReady, Counts.init) =
      ({ stReady with audioTrack := some audW },
       { Counts.init with voiceGenCalls := 1 }) ∧
    finalReview cBase false (stReady, Counts.init) =
      Except.ok (stReady, Counts.init) := by
  have h := claim_C7 cBase stPool Counts.init rfl
  have h2 := claim_C7 cBase stReady Counts.init rfl
  refine ⟨h.1 tHigh [] rfl, ?_, h2.2.2.2.1 audW rfl, h2.2.2.2.2⟩
  have := h2.2.1 scrW (by decide) rfl
  simpa using this

lemma scriptLoop_allRejected (c : Collaborators) (st : WorkflowState)
    (hgen : ∀ i, ∃ s, c.scriptGen i st.trend = Except.ok s)
    (hrev : ∀ i s, ∃ fb, c.reviewScript i s = Except.ok fb ∧
      fb.result = ReviewResult.rejected) :
    ∀ fuel attempts (k : Counts),
      (scriptLoop c true st k attempts fuel).1 =
        { st with error := some "Script rejected after 3 attempts" } ∧
      (scriptLoop c true st k attempts fuel).2.scriptGenCalls =
        k.scriptGenCalls + fuel ∧
      (scriptLoop c true st k attempts fuel).2.reviewScriptCalls =
        k.reviewScriptCalls + fuel := by
  intro fuel
  induction fuel with
  | zero =>
    intro attempts k
    exact ⟨rfl, rfl, rfl⟩
  | succ f ih =>
    intro attempts k
    obtain ⟨s0, hs0⟩ := hgen k.scriptGenCalls
    obtain ⟨fb0, hfb0, hr0⟩ := hrev k.reviewScriptCalls s0
    rw [scriptLoop]
    simp only [hs0, hfb0, hr0, if_true, reduceCtorEq, if_false]
    have step := ih (attempts + 1) { k with scriptGenCalls := k.scriptGenCalls + 1, reviewScriptCalls := k.reviewScriptCalls + 1 }
    refine ⟨step.1, ?_, ?_⟩
    · rw [step.2.1]
      simp
      omega
    · rw [step.2.2]
      simp
      omega

lemma imagesLoop_allRejected (c : Collaborators) (st : WorkflowState)
    (scr : Script) (hscr : st.script = some scr)
    (hgen : ∀ i, ∃ imgs, c.imageGen i scr.scenePrompts = Except.ok imgs)
    (hrev : ∀ i imgs, ∃ fb, c.reviewImages i imgs = Except.ok fb ∧
      fb.result = ReviewResult.rejected ∧ fb.score < 6) :
    ∀ fuel attempts (k : Counts),
      (imagesLoop c true st k attempts fuel).1 =
        { st with error := some "Images rejected after 3 attempts" } ∧
      (imagesLoop c true st k attempts fuel).2.imageGenCalls =
        k.imageGenCalls + fuel ∧
      (imagesLoop c true st k attempts fuel).2.reviewImagesCalls =
        k.reviewImagesCalls + fuel := by
  intro fuel
  induction fuel with
  | zero =>
    intro attempts k
    exact ⟨rfl, rfl, rfl⟩
  | succ f ih =>
    intro attempts k
    obtain ⟨imgs0, hg0⟩ := hgen k.imageGenCalls
    obtain ⟨fb0, hfb0, hr0, h60⟩ := hrev k.reviewImagesCalls imgs0
    rw [imagesLoop]
    have h6f : ¬ fb0.score ≥ 6 := by omega
    simp only [hscr, hg0, hfb0, hr0, if_true, reduceCtorEq, if_false, if_neg h6f]
    have step := ih (attempts + 1) { k with imageGenCalls := k.imageGenCalls + 1, reviewImagesCalls := k.reviewImagesCalls + 1 }
    simp only [hscr] at step
    refine ⟨step.1, ?_, ?_⟩
    · rw [step.2.1]
      omega
    · rw [step.2.2]
      omega

/-- C4 (amended): the bounded-retry failure mode applies to the script and
images stages. In strict mode with successful generations and a grader
that rejects every attempt (for images: with scores below the acceptance
floor 6), the stage fails with error `"<stage> rejected after 3 attempts"`
after exactly `MAX_RETRIES = 3` generator invocations and 3 grader
invocations — not 4. The topic, audio and final-review stages do not
follow this pattern (see the counterexample). -/
theorem claim_C4 : ∀ (c : Collaborators) (st : WorkflowState) (k : Counts),
    st.error = none →
    (st.scriptAttempts = 0 →
      (∀ i, ∃ s, c.scriptGen i st.trend = Except.ok s) →
      (∀ i s, ∃ fb, c.reviewScript i s = Except.ok fb ∧
        fb.result = ReviewResult.rejected) →
      (generateScript c true (st, k)).1 =
        { st with error := some "Script rejected after 3 attempts" } ∧
      (generateScript c true (st, k)).2.scriptGenCalls =
        k.scriptGenCalls + MAX_RETRIES ∧
      (generateScript c true (st, k)).2.reviewScriptCalls =
        k.reviewScriptCalls + MAX_RETRIES) ∧
    (st.imageAttempts = 0 →
      ∀ scr, st.script = some scr →
      (∀ i, ∃ imgs, c.imageGen i scr.scenePrompts = Except.ok imgs) →
      (∀ i imgs, ∃ fb, c.reviewImages i imgs = Except.ok fb ∧
        fb.result = ReviewResult.rejected ∧ fb.score < 6) →
      (generateImages c true (st, k)).1 =
        { st with error := some "Images rejected after 3 attempts" } ∧
      (generateImages c true (st, k)).2.imageGenCalls =
        k.imageGenCalls + MAX_RETRIES ∧
      (generateImages c true (st, k)).2.reviewImagesCalls =
        k.reviewImagesCalls + MAX_RETRIES) := by
  intro c st k herr
  constructor
  · intro h0 hgen hrev
    have hgs : generateScript c true (st, k) =
        scriptLoop c true st k 0 MAX_RETRIES := by
      simp [generateScript, herr, h0]
    rw [hgs]
    exact scriptLoop_allRejected c st hgen hrev MAX_RETRIES 0 k
  · intro h0 scr hscr hgen hrev
    have hgi : generateImages c true (st, k) =
        imagesLoop c true st k 0 MAX_RETRIES := by
      simp [generateImages, herr, h0]
    rw [hgi]
    exact imagesLoop_allRejected c st scr hscr hgen hrev MAX_RETRIES 0 k

/-- Collaborators whose script/image graders reject every attempt with a
low score. -/
def cAllRej : Collaborators :=
  { cBase with
      reviewScript := fun _ _ => Except.ok fbRej
      reviewImages := fun _ _ => Except.ok fbRej }

/-- A state right after an accepted topic, before the script stage. -/
def stC4 : WorkflowState :=
  { initState ContentType.auto none none none with trend := some tHigh }

/-- Witness for C4: with an always-rejecting grader the script stage (at
`stC4`, after an accepted topic) fails with the exhausted message after
exactly 3 generation and 3 grading calls. -/
theorem claim_C4_witness :
    (generateScript cAllRej true (stC4, Counts.init)).1 =
      { stC4 with error := some "Script rejected after 3 attempts" } ∧
    (generateScript cAllRej true (stC4, Counts.init)).2.scriptGenCalls = 3 ∧
    (generateScript cAllRej true (stC4, Counts.init)).2.reviewScriptCalls = 3 := by
  have h := (claim_C4 cAllRej stC4 Counts.init rfl).1 rfl
    (fun i => ⟨scrW, rfl⟩) (fun i s => ⟨fbRej, rfl, rfl⟩)
  exact h

/-- Counterexample to C4 as stated ("for every stage"): the audio stage in
strict mode with a grader that deterministically rejects does not fail at
all — it keeps the artifact, leaves the error unset and performs exactly
one generation (no attempt accounting). -/
theorem claim_C4_counterexample :
    (genAudioStage (let c := cBase;
        { c with reviewAudioFn := fun _ _ => Except.ok fbRej }) true
      (stReady, Counts.init)).1.error = none ∧
    (genAudioStage (let c := cBase;
        { c with reviewAudioFn := fun _ _ => Except.ok fbRej }) true
      (stReady, Counts.init)).1.audioTrack = some audW ∧
    (genAudioStage (let c := cBase;
        { c with reviewAudioFn := fun _ _ => Except.ok fbRej }) true
      (stReady, Counts.init)).2.voiceGenCalls = 1 := by
  exact ⟨rfl, rfl, rfl⟩

/-- C5 (amended): in strict mode the audio stage performs a single
generation; the verdict is requested but has no effect — even a Rejected
verdict leaves the artifact in place (only a warning is printed), the
`audio_attempts` counter is untouched, and the stage is not re-invoked
(exactly one voice-generation call). -/
theorem claim_C5 : ∀ (c : Collaborators) (st : WorkflowState) (k : Counts)
    (a : AudioResult) (fb : SupervisorFeedback),
    st.error = none →
    c.voiceGen k.voiceGenCalls st.script = Except.ok a →
    c.reviewAudioFn k.reviewAudioCalls a = Except.ok fb →
    genAudioStage c true (st, k) =
      ({ st with audioTrack := some a },
       { k with voiceGenCalls := k.voiceGenCalls + 1,
                reviewAudioCalls := k.reviewAudioCalls + 1 }) := by
  intro c st k a fb herr hgen hrev
  unfold genAudioStage
  simp [herr, hgen, hrev]

/-- Collaborators whose audio grader rejects. -/
def cAudRej : Collaborators :=
  { cBase with reviewAudioFn := fun _ _ =>
      Except.ok { result := ReviewResult.rejected, score := 4,
                  feedback := "not ideal", suggestions := [] } }

/-- Counterexample to C5 as stated: a Rejected audio verdict does not
discard the artifact, does not increment the audio attempt counter, and
does not trigger a regeneration — the artifact is kept, the counter stays
at 0 and the voice synthesizer is invoked exactly once. -/
theorem claim_C5_counterexample :
    (genAudioStage cAudRej true (stPool, Counts.init)).1.audioTrack = some audW ∧
    (genAudioStage cAudRej true (stPool, Counts.init)).1.audioAttempts = 0 ∧
    (genAudioStage cAudRej true (stPool, Counts.init)).1.error = none ∧
    (genAudioStage cAudRej true (stPool, Counts.init)).2.voiceGenCalls = 1 := by
  exact ⟨rfl, rfl, rfl, rfl⟩

/-- Witness for C5: applying the amended theorem at the rejecting grader
instance gives the kept-artifact outcome concretely. -/
theorem claim_C5_witness :
    genAudioStage cAudRej true (stReady, Counts.init) =
      ({ stReady with audioTrack := some audW },
       { Counts.init with voiceGenCalls := 1, reviewAudioCalls := 1 }) := by
  have h := claim_C5 cAudRej stReady Counts.init audW
    { result := ReviewResult.rejected, score := 4,
      feedback := "not ideal", suggestions := [] } rfl rfl rfl
  simpa using h

/-- C8 (amended): exceptions are caught, counted against the attempt
budget and retried only inside the script and images stage loops (shown by
a first-attempt generation exception followed by a successful, approved
second attempt: two generation calls, one grading call, success with the
stage's attempts counter at 2). In the topic, audio and video stages an
exception is immediately fatal — stored in `error` after a single
generation call, not retried — and in the final-review node a grader
exception propagates out of the graph uncaught. Callers still never see
attempt-level exceptions from the looping stages. -/
theorem claim_C8 : ∀ (c : Collaborators) (st : WorkflowState) (k : Counts),
    st.error = none →
    (∀ e s fb, st.scriptAttempts = 0 →
      c.scriptGen k.scriptGenCalls st.trend = Except.error e →
      c.scriptGen (k.scriptGenCalls + 1) st.trend = Except.ok s →
      c.reviewScript k.reviewScriptCalls s = Except.ok fb →
      fb.result = ReviewResult.approved →
      generateScript c true (st, k) =
        ({ st with script := some s, scriptAttempts := 2 },
         { k with scriptGenCalls := k.scriptGenCalls + 2,
                  reviewScriptCalls := k.reviewScriptCalls + 1 })) ∧
    (∀ eI scr imgs fb, st.imageAttempts = 0 → st.script = some scr →
      c.imageGen k.imageGenCalls scr.scenePrompts = Except.error eI →
      c.imageGen (k.imageGenCalls + 1) scr.scenePrompts = Except.ok imgs →
      c.reviewImages k.reviewImagesCalls imgs = Except.ok fb →
      fb.result = ReviewResult.approved →
      generateImages c true (st, k) =
        ({ st with images := imgs, imageAttempts := 2 },
         { k with imageGenCalls := k.imageGenCalls + 2,
                  reviewImagesCalls := k.reviewImagesCalls + 1 })) ∧
    (∀ e2, c.voiceGen k.voiceGenCalls st.script = Except.error e2 →
      genAudioStage c true (st, k) =
        ({ st with error := some e2 },
         { k with voiceGenCalls := k.voiceGenCalls + 1 })) ∧
    (st.contentType = ContentType.auto → st.trendsPool = [] →
      ∀ e3, c.trendAuto k.trendSourceCalls = Except.error e3 →
      fetchTrend c true (st, k) =
        ({ st with error := some e3 },
         { k with trendSourceCalls := k.trendSourceCalls + 1 })) ∧
    (∀ e5, c.videoGen k.videoGenCalls = Except.error e5 →
      createVideo c (st, k) =
        ({ st with error := some e5 },
         { k with videoGenCalls := k.videoGenCalls + 1 })) ∧
    (∀ a e4, st.audioTrack = some a →
      c.finalGrade k.finalReviewCalls = Except.error e4 →
      finalReview c true (st, k) = Except.error e4) := by
  intro c st k herr
  refine ⟨?_, ?_, ?_, ?_, ?_, ?_⟩
  · intro e s fb h0 hg0 hg1 hrev happ
    have hgs : generateScript c true (st, k) =
        scriptLoop c true st k 0 MAX_RETRIES := by
      simp [generateScript, herr, h0]
    rw [hgs]
    rw [show MAX_RETRIES = 2 + 1 from rfl, scriptLoop]
    simp only [hg0]
    rw [show (2 : Nat) = 1 + 1 from rfl, scriptLoop]
    simp only [hg1, hrev, happ]
    simp
  · intro eI scr imgs fb h0 hscr hg0 hg1 hrev happ
    have hgi : generateImages c true (st, k) =
        imagesLoop c true st k 0 MAX_RETRIES := by
      simp [generateImages, herr, h0]
    rw [hgi]
    rw [show MAX_RETRIES = 2 + 1 from rfl, imagesLoop]
    simp only [hscr, hg0]
    rw [show (2 : Nat) = 1 + 1 from rfl, imagesLoop]
    simp only [hscr, hg1, hrev, happ]
    simp
  · intro e2 hg
    unfold genAudioStage
    simp [herr, hg]
  · intro hct hpool e3 hg
    unfold fetchTrend fetchCandidates
    simp [herr, hct, hpool, hg, truthy]
  · intro e5 hg
    unfold createVideo
    simp [herr, hg]
  · intro a e4 ha hg
    unfold finalReview
    simp [herr, ha, hg]

/-- Collaborators whose voice synthesizer raises. -/
def cAudExc : Collaborators :=
  { cBase with voiceGen := fun _ _ =>
      Except.error "ConnectionError: TTS service unreachable" }

/-- Counterexample to C8 as stated ("for every stage"): an exception in the
audio stage generator is not counted-and-retried; it is immediately fatal
(one generation call, no retry, error set) even though no attempt budget
was exhausted and no pool ran out. -/
theorem claim_C8_counterexample :
    (genAudioStage cAudExc true (stReady, Counts.init)).1.error =
      some "ConnectionError: TTS service unreachable" ∧
    (genAudioStage cAudExc true (stReady, Counts.init)).1.audioAttempts = 0 ∧
    (genAudioStage cAudExc true (stReady, Counts.init)).2.voiceGenCalls = 1 := by
  exact ⟨rfl, rfl, rfl⟩

/-- Collaborators whose script generator raises once, then succeeds. -/
def cScrExc : Collaborators :=
  { cBase with scriptGen := fun i _ =>
      if i = 0 then Except.error "VendorError: rate limited"
      else Except.ok scrW }

/-- Collaborators whose image synthesizer raises once, then succeeds. -/
def cImgExc : Collaborators :=
  { cBase with imageGen := fun i _ =>
      if i = 0 then Except.error "SDError: out of memory"
      else Except.ok imgsW }

/-- Collaborators whose video composer raises. -/
def cVidExc : Collaborators :=
  { cBase with videoGen := fun _ =>
      Except.error "FFmpegError: encode failed" }

/-- A state right after an accepted script, before the images stage. -/
def stImg : WorkflowState :=
  { stC4 with script := some scrW, scriptAttempts := 1 }

/-- Witness for C8: in the script and images stages a first-attempt
exception is absorbed and the approved second attempt is accepted, while
an audio-generation exception and a video-composition exception are
immediately fatal after a single call. -/
theorem claim_C8_witness :
    generateScript cScrExc true (stC4, Counts.init) =
      ({ stC4 with script := some scrW, scriptAttempts := 2 },
       { Counts.init with scriptGenCalls := 2, reviewScriptCalls := 1 }) ∧
    generateImages cImgExc true (stImg, Counts.init) =
      ({ stImg with images := imgsW, imageAttempts := 2 },
       { Counts.init with imageGenCalls := 2, reviewImagesCalls := 1 }) ∧
    genAudioStage cAudExc true (stReady, Counts.init) =
      ({ stReady with error := some "ConnectionError: TTS service unreachable" },
       { Counts.init with voiceGenCalls := 1 }) ∧
    createVideo cVidExc (stReady, Counts.init) =
      ({ stReady with error := some "FFmpegError: encode failed" },
       { Counts.init with videoGenCalls := 1 }) := by
  have h1 := (claim_C8 cScrExc stC4 Counts.init rfl).1
    "VendorError: rate limited" scrW fbApp rfl rfl rfl rfl rfl
  have h2 := (claim_C8 cImgExc stImg Counts.init rfl).2.1
    "SDError: out of memory" scrW imgsW fbApp rfl rfl rfl rfl rfl rfl
  have h3 := (claim_C8 cAudExc stReady Counts.init rfl).2.2.1
    "ConnectionError: TTS service unreachable" rfl
  have h4 := (claim_C8 cVidExc stReady Counts.init rfl).2.2.2.2.1
    "FFmpegError: encode failed" rfl
  exact ⟨by simpa using h1, by simpa using h2, by simpa using h3,
    by simpa using h4⟩

/-- C6. Image-stage acceptance floor: in strict mode a verdict that is not
Approved is nevertheless accepted when its score is at least 6 — a
Rejected verdict with score exactly 6 is accepted on the spot (one
generation, one grading, `image_attempts = 1`); a Rejected verdict with
score 5 is not accepted and consumes a retry (here the second attempt is
approved, so the stage ends with `image_attempts = 2` and two
generation/grading calls). -/
theorem claim_C6 : ∀ (c : Collaborators) (st : WorkflowState) (k : Counts)
    (scr : Script) (imgs0 : List ImageResult) (fb0 : SupervisorFeedback),
    st.error = none → st.imageAttempts = 0 → st.script = some scr →
    c.imageGen k.imageGenCalls scr.scenePrompts = Except.ok imgs0 →
    c.reviewImages k.reviewImagesCalls imgs0 = Except.ok fb0 →
    fb0.result = ReviewResult.rejected →
    ((fb0.score = 6 →
      generateImages c true (st, k) =
        ({ st with images := imgs0, imageAttempts := 1 },
         { k with imageGenCalls := k.imageGenCalls + 1,
                  reviewImagesCalls := k.reviewImagesCalls + 1 })) ∧
     (fb0.score = 5 →
      ∀ imgs1 fb1,
        c.imageGen (k.imageGenCalls + 1) scr.scenePrompts = Except.ok imgs1 →
        c.reviewImages (k.reviewImagesCalls + 1) imgs1 = Except.ok fb1 →
        fb1.result = ReviewResult.approved →
        generateImages c true (st, k) =
          ({ st with images := imgs1, imageAttempts := 2 },
           { k with imageGenCalls := k.imageGenCalls + 2,
                    reviewImagesCalls := k.reviewImagesCalls + 2 }))) := by
  intro c st k scr imgs0 fb0 herr h0 hscr hg0 hr0 hrej
  have hgi : generateImages c true (st, k) =
      imagesLoop c true st k 0 MAX_RETRIES := by
    simp [generateImages, herr, h0]
  constructor
  · intro h6
    rw [hgi, show MAX_RETRIES = 2 + 1 from rfl, imagesLoop]
    have h6t : fb0.score ≥ 6 := by omega
    simp only [hscr, hg0, hr0, hrej, reduceCtorEq, if_false, if_pos h6t, if_true]
  · intro h5 imgs1 fb1 hg1 hr1 happ1
    rw [hgi, show MAX_RETRIES = 2 + 1 from rfl, imagesLoop]
    have h6f : ¬ fb0.score ≥ 6 := by omega
    simp only [hscr, hg0, hr0, hrej, reduceCtorEq, if_false, if_neg h6f, if_true]
    rw [show (2 : Nat) = 1 + 1 from rfl, imagesLoop]
    simp only [hscr, hg1, hr1, happ1]
    simp [h0]

/-- Collaborators whose image grader returns Rejected with score 6. -/
def cImg6 : Collaborators :=
  { cBase with reviewImages := fun _ _ =>
      Except.ok { result := ReviewResult.rejected, score := 6,
                  feedback := "meh", suggestions := [] } }

/-- Collaborators whose image grader returns Rejected score 5 on its first
call and Approved afterwards. -/
def cImg5 : Collaborators :=
  { cBase with reviewImages := fun i _ =>
      if i = 0 then
        Except.ok { result := ReviewResult.rejected, score := 5,
                    feedback := "weak", suggestions := [] }
      else Except.ok fbApp }

/-- Witness for C6 at concrete data: score 6 + Rejected is accepted on
attempt 1; score 5 + Rejected consumes the attempt and the approved second
try is the one accepted. -/
theorem claim_C6_witness :
    generateImages cImg6 true (stImg, Counts.init) =
      ({ stImg with images := imgsW, imageAttempts := 1 },
       { Counts.init with imageGenCalls := 1, reviewImagesCalls := 1 }) ∧
    generateImages cImg5 true (stImg, Counts.init) =
      ({ stImg with images := imgsW, imageAttempts := 2 },
       { Counts.init with imageGenCalls := 2, reviewImagesCalls := 2 }) := by
  constructor
  · have h := (claim_C6 cImg6 stImg Counts.init scrW imgsW
      { result := ReviewResult.rejected, score := 6,
        feedback := "meh", suggestions := [] }
      rfl rfl rfl rfl rfl rfl).1 rfl
    simpa using h
  · have h := (claim_C6 cImg5 stImg Counts.init scrW imgsW
      { result := ReviewResult.rejected, score := 5,
        feedback := "weak", suggestions := [] }
      rfl rfl rfl rfl rfl rfl).2 rfl imgsW fbApp rfl rfl rfl
    simpa using h

/-- Collaborators for the C1 failing input: the topic grader rejects the
single candidate, and the script agent (faithfully to
`script_agent.run(trend=None)`) raises when handed a missing trend. -/
def cC1 : Collaborators :=
  { cBase with
      reviewTrend := fun _ _ => Except.ok fbRej
      scriptGen := fun _ t =>
        match t with
        | none => Except.error "AttributeError: NoneType has no attribute title"
        | some _ => Except.ok scrW }

/-- C1 fails on the code: in strict mode, when the topic grader rejects a
candidate without exhausting the budget, `_fetch_trend` returns with no
trend selected and no error set, and the graph (which has no edge back to
`fetch_trend`) marches straight into `_generate_script` — the stage-2
generator is invoked (three times) although the stage-1 artifact was never
accepted. The run ends with the script stage exhausted while `trend` is
still `none` after exactly one topic rejection. -/
theorem claim_C1 :
    (runPipeline cC1 true (initState ContentType.auto none none none)).toOption.map
      (fun sk => (sk.1.trend, sk.1.error, sk.2.scriptGenCalls,
        sk.2.reviewTrendCalls)) =
    some (none, some "Script rejected after 3 attempts", 3, 1) := by decide

/-- Collaborators for the C3 failing input: a pool of three candidates
(scores 50, 90, 70 before sorting) whose grader rejects its first two
invocations and approves from the third on. -/
def cC3 : Collaborators :=
  { cBase with
      trendAuto := fun _ => Except.ok [tLow, tHigh, tMid]
      reviewTrend := fun i _ =>
        Except.ok (if i ≤ 1 then fbRej else fbApp) }

/-- C3 fails on the code: the pool is sorted descending at fill time and
the source is called once, but "advance to the next pooled candidate" never
happens — `fetch_trend` is a single-shot graph node, so after the first
rejection the stage ends with one rejection recorded, two candidates still
pooled, and no topic selected (the claimed scenario demands the
third-ranked candidate selected, 2 rejections, empty pool). -/
theorem claim_C3 :
    (fetchTrend cC3 true
      (initState ContentType.auto none none none, Counts.init)).1.trend = none ∧
    (fetchTrend cC3 true
      (initState ContentType.auto none none none, Counts.init)).1.trendsPool =
        [tMid, tLow] ∧
    (fetchTrend cC3 true
      (initState ContentType.auto none none none, Counts.init)).1.trendAttempts = 1 ∧
    (fetchTrend cC3 true
      (initState ContentType.auto none none none, Counts.init)).1.error = none ∧
    (fetchTrend cC3 true
      (initState ContentType.auto none none none, Counts.init)).2.reviewTrendCalls = 1 ∧
    (fetchTrend cC3 true
      (initState ContentType.auto none none none, Counts.init)).2.trendSourceCalls = 1 := by
  exact ⟨rfl, by decide, rfl, rfl, rfl, rfl⟩
